import Mathlib

/-!
Shallow embedding of the scoring core of `Risk_Impact.py` (Workday-Resilience-AI).

Python floats are modelled as exact rationals (`ℚ`); all arithmetic in the source is
on small decimal constants, so this is faithful except for sub-ulp rounding noise that
no statement here depends on.  Python `int` is `ℤ`.  A questionnaire entry's
`user_input` dict (`Dict[str, Any]`) is modelled as a total function from keys to a
`Value`; an absent key maps to `Value.none` (Python `dict.get` returning `None`).

The model is exact on the inputs the survey layer produces (labels are strings,
numeric fields are numbers, multi-selects are lists of strings, flags are booleans,
anything may be absent).  Where CPython would raise on a wildly ill-typed value
(e.g. `.strip()` on a truthy number), the places a settled statement depends on are
modelled with `Except`; remaining such corners are noted at each definition.
-/

namespace RiskImpact

/-- A field value of a questionnaire entry mapping. -/
inductive Value where
  | none : Value
  | bool : Bool → Value
  | str : String → Value
  | num : ℚ → Value
  | strs : List String → Value
deriving DecidableEq

/-- A `user_input` mapping: total function from field name to value, absent = `Value.none`. -/
def VMap : Type := String → Value

/-- The empty `user_input` mapping (every field absent). -/
def emptyUI : VMap := fun _ => Value.none

/-- Python truthiness of a `Value` (`None`, `False`, `""`, `0`, `[]` are falsy). -/
def truthy : Value → Bool
  | Value.none => false
  | Value.bool b => b
  | Value.str s => !(s == "")
  | Value.num q => !(q == 0)
  | Value.strs l => !l.isEmpty

/-- The minus-sign string. -/
def strMinus : String := "-"

/-- The plus-sign string. -/
def strPlus : String := "+"

/-- The decimal-point string. -/
def strDot : String := "."

/-- Model of `float(s)` on a plain decimal string literal (optional sign, digits,
optional fractional part); other spellings (exponents, `inf`, `"1."`) parse in
CPython but are not produced by the survey layer and are modelled as failures. -/
def parseFloat (s : String) : Option ℚ :=
  let t := s.trim
  let sign : ℚ := if t.startsWith strMinus then -1 else 1
  let t := if t.startsWith strMinus || t.startsWith strPlus then t.drop 1 else t
  match t.splitOn strDot with
  | [a] => (a.toNat?).map (fun n => sign * (n : ℚ))
  | [a, b] =>
      match a.toNat?, b.toNat? with
      | some i, some f => some (sign * ((i : ℚ) + (f : ℚ) / (10 : ℚ) ^ b.length))
      | _, _ => Option.none
  | _ => Option.none

/-- `safe_float(x, default)`: `None` → default, else `float(x)`, any failure → default. -/
def safe_float (v : Value) (default : ℚ) : ℚ :=
  match v with
  | Value.none => default
  | Value.num q => q
  | Value.bool b => if b then 1 else 0
  | Value.str s => (parseFloat s).getD default
  | Value.strs _ => default

/-- `safe_int(x, default)`: `None` → default, else `int(x)` (truncation toward zero on
numbers, base-10 parse on strings), any failure → default. -/
def safe_int (v : Value) (default : ℤ) : ℤ :=
  match v with
  | Value.none => default
  | Value.num q => if q < 0 then -(Int.floor (-q)) else Int.floor q
  | Value.bool b => if b then 1 else 0
  | Value.str s => (s.trim.toInt?).getD default
  | Value.strs _ => default

/-- `clamp(x, lo, hi) = max(lo, min(hi, x))`. -/
def clamp (x lo hi : ℚ) : ℚ := max lo (min hi x)

/-- `(ui.get(k) or "").strip()`: a string field is stripped, any falsy value becomes
the empty string.  (A truthy non-string would raise `AttributeError` in CPython; the
settled statements never touch that corner except in `score_eye_entry`, where it is
modelled explicitly.) -/
def getStr (ui : VMap) (k : String) : String :=
  match ui k with
  | Value.str s => s.trim
  | _ => ""

/-- `ui.get(k) or []` for multi-select fields, used only for iteration/sum of mapped
points: a list of labels is kept, any other value contributes nothing (a falsy value
becomes `[]`; iterating a truthy string yields single characters, none of which match
any points table). -/
def getStrs (ui : VMap) (k : String) : List String :=
  match ui k with
  | Value.strs l => l
  | _ => []

/-- `len(ui.get(k) or [])` for multi-select fields: length of the list (or of the
string, matching `len` on a truthy string), 0 for falsy values. -/
def pyLen (v : Value) : ℕ :=
  match v with
  | Value.strs l => l.length
  | Value.str s => s.length
  | _ => 0

/-- `ui.get(k) is True`. -/
def isTrue (v : Value) : Bool := v == Value.bool true

/-- `ui.get(k) is False`. -/
def isFalse (v : Value) : Bool := v == Value.bool false

/-- `get_last_n(history, n) = history[-n:]` (for the `n ≥ 1` the core uses). -/
def get_last_n {α : Type} (history : List α) (n : ℕ) : List α :=
  history.drop (history.length - n)

/-- The `ValueError` message raised by `weighted_average`. -/
def msgLenMismatch : String := "Scores and weights length mismatch."

/-- `weighted_average(scores, weights)`: 0.0 on empty scores; `ValueError` when the
lengths mismatch (scores non-empty); 0.0 when the weight total is ≤ 0; else the
weighted mean divided by the sum of the weights actually used. -/
def weighted_average (scores weights : List ℚ) : Except String ℚ :=
  if scores.isEmpty then Except.ok 0
  else if scores.length ≠ weights.length then
    Except.error msgLenMismatch
  else
    let total_w := weights.sum
    if total_w ≤ 0 then Except.ok 0
    else Except.ok ((List.zipWith (fun s w => s * w) scores weights).sum / total_w)

/-- `max(l)` on a non-empty Python list (the core only calls it guarded by non-emptiness;
the `[]` case is an arbitrary value, unreachable at every call site). -/
def pymax (l : List ℚ) : ℚ :=
  match l with
  | [] => 0
  | h :: t => t.foldl max h

/-- The recency weights `[0.40, 0.25, 0.15, 0.12, 0.08]`, newest first. -/
def base_weights : List ℚ := [40/100, 25/100, 15/100, 12/100, 8/100]

/-- `compute_weighted_recent_score(scores)`: scores oldest→newest, recency-weighted
average (newest heaviest, weight prefix for short windows) blended 75/25 with the
window maximum, clamped to [0,100]. -/
def compute_weighted_recent_score (scores : List ℚ) : Except String ℚ :=
  if scores.isEmpty then Except.ok 0
  else do
    let weights := base_weights.take scores.length
    let scores_newest_first := scores.reverse
    let wavg ← weighted_average scores_newest_first weights
    let max_score := pymax scores
    let final := 75/100 * wavg + 25/100 * max_score
    pure (clamp final 0 100)

/-- `normalize_score(raw, raw_max)`. -/
def normalize_score (raw_points raw_max : ℚ) : ℚ :=
  if raw_max ≤ 0 then 0
  else clamp (100 * (raw_points / raw_max)) 0 100

/-! Field-name keys of the `user_input` mappings, as they appear in the source. -/

def kGoodPosture : String := "good_posture"
def kBreaks : String := "breaks"
def kMonitorHeight : String := "monitor_height"
def kLumbarSupport : String := "lumbar_support"
def kFeetPosition : String := "feet_position"
def kInputDevice : String := "input_device"
def kKeyboardType : String := "keyboard_type"
def kWristSupport : String := "wrist_support"
def kArmrests : String := "armrests"
def kEatAtDesk : String := "eat_at_desk"
def kNoiseLevel : String := "noise_level"
def kTemperature : String := "temperature"
def kClutter : String := "clutter"
def kStrainLevel : String := "strain_level"
def kSessionLength : String := "session_length"
def kSymptoms : String := "symptoms"
def kLighting : String := "lighting"
def kScreenBrightness : String := "screen_brightness"
def kGlare : String := "glare"
def kDistanceCheck : String := "distance_check"
def kRule202020 : String := "rule_20_20_20"
def kUsedDrops : String := "used_drops"
def kWaterIntake : String := "water_intake"
def kCaffeineIntake : String := "caffeine_intake"
def kSugaryDrinks : String := "sugary_drinks"
def kBottleOnDesk : String := "bottle_on_desk"
def kUrineColor : String := "urine_color"
def kThirstLevel : String := "thirst_level"
def kPainLevel : String := "pain_level"
def kOnsetTiming : String := "onset_timing"
def kFocusArea : String := "focus_area"
def kPainNature : String := "pain_nature"
def kNeckRom : String := "neck_rom"
def kSeatedDuration : String := "seated_duration"
def kMorningStiffness : String := "morning_stiffness"
def kTriggers : String := "triggers"
def kImpactWork : String := "impact_work"
def kImpactSleep : String := "impact_sleep"
def kReliefMethods : String := "relief_methods"
def kHeight : String := "height"
def kWeight : String := "weight"
def kBpSystolic : String := "bp_systolic"
def kBpDiastolic : String := "bp_diastolic"
def kRhr : String := "rhr"
def kActivityLevel : String := "activity_level"
def kWaistCm : String := "waist_cm"
def kGlucose : String := "glucose"
def kHba1c : String := "hba1c"
def kCholesterol : String := "cholesterol"
def kTriglycerides : String := "triglycerides"
def kVitD : String := "vit_d"
def kVitB12 : String := "vit_b12"
def kSleepHours : String := "sleep_hours"

/-! Entry scorers.  Each per-field points helper transcribes the corresponding
`if`/`elif` ladder or lookup table (the labels are pairwise distinct, so a match is
an exact transcription); the scorer sums the contributions, mirroring the sequential
`raw += ...` accumulation whose terms are independent, and normalizes. -/

/-- Points for the `breaks` label in `score_workspace_entry`. -/
def workspace_breaks_points : String → ℚ
  | "Some breaks" => 8
  | "Few breaks" => 16
  | "No breaks" => 24
  | _ => 0

/-- Points for the `monitor_height` label in `score_workspace_entry`. -/
def workspace_monitor_points : String → ℚ
  | "Slightly Below Eye Level" => 6
  | "Below Eye Level (Looking Down)" => 14
  | "Above Eye Level" => 10
  | _ => 0

/-- Points for the `feet_position` label in `score_workspace_entry`. -/
def workspace_feet_points : String → ℚ
  | "Not Supported / Dangling" => 8
  | "Crossed / Tucked" => 6
  | _ => 0

/-- Points for the `input_device` label in `score_workspace_entry`. -/
def workspace_device_points : String → ℚ
  | "Standard Mouse" => 4
  | "Trackpad" => 10
  | _ => 0

/-- Points for the `armrests` label in `score_workspace_entry`. -/
def workspace_armrests_points : String → ℚ
  | "Level with desk" => 2
  | "Too low" => 6
  | "Too high" => 6
  | "None" => 6
  | "No" => 6
  | _ => 0

/-- Points for the `noise_level` label in `score_workspace_entry`. -/
def workspace_noise_points : String → ℚ
  | "Hum/White Noise" => 3
  | "Distracting/Loud" => 10
  | _ => 0

/-- Points for the `temperature` label in `score_workspace_entry`. -/
def workspace_temperature_points : String → ℚ
  | "Cold" => 6
  | "Hot" => 6
  | _ => 0

/-- Points for the `clutter` label in `score_workspace_entry`. -/
def workspace_clutter_points : String → ℚ
  | "Average" => 3
  | "Cluttered" => 8
  | _ => 0

/-- `score_workspace_entry(ui)`, RAW_MAX 100. -/
def score_workspace_entry (ui : VMap) : ℚ :=
  let raw : ℚ :=
    (if isFalse (ui kGoodPosture) then 18 else 0)
    + workspace_breaks_points (getStr ui kBreaks)
    + workspace_monitor_points (getStr ui kMonitorHeight)
    + (if isFalse (ui kLumbarSupport) then 10 else 0)
    + workspace_feet_points (getStr ui kFeetPosition)
    + workspace_device_points (getStr ui kInputDevice)
    + (if getStr ui kKeyboardType = "Laptop Keyboard" then 8 else 0)
    + (if getStr ui kWristSupport = "No" then 6 else 0)
    + workspace_armrests_points (getStr ui kArmrests)
    + (if isTrue (ui kEatAtDesk) then 6 else 0)
    + workspace_noise_points (getStr ui kNoiseLevel)
    + workspace_temperature_points (getStr ui kTemperature)
    + workspace_clutter_points (getStr ui kClutter)
  normalize_score raw 100

/-- Points for the `session_length` label in `score_eye_entry`. -/
def eye_session_points : String → ℚ
  | "1-2 hours" => 8
  | "2-4 hours" => 16
  | "4+ hours" => 24
  | _ => 0

/-- The `symptoms` points table of `score_eye_entry`. -/
def eye_symptom_points : String → ℚ
  | "Dryness / Gritty feeling" => 8
  | "Blurred Vision (end of day)" => 10
  | "Headache (behind eyes)" => 12
  | "Eye Twitching" => 8
  | "Watery Eyes" => 6
  | "Burning / Irritation" => 8
  | "Difficulty focusing" => 10
  | _ => 0

/-- Points for the `lighting` label in `score_eye_entry`. -/
def eye_lighting_points : String → ℚ
  | "Mixed" => 6
  | "Dim" => 10
  | "Harsh/Overhead" => 10
  | _ => 0

/-- Points for the `screen_brightness` label in `score_eye_entry`. -/
def eye_brightness_points : String → ℚ
  | "Brighter than room" => 8
  | "Too dim" => 6
  | _ => 0

/-- Points for the `rule_20_20_20` label in `score_eye_entry`. -/
def eye_rule_points : String → ℚ
  | "Often" => 4
  | "Occasionally" => 10
  | "Never" => 16
  | _ => 0

/-- The `NameError` CPython raises at `score_eye_entry`'s `session_length` line: the
expression `(ui.get("session_length") or note_or_empty(ui.get("session_length")))`
evaluates its right operand whenever the field is falsy (absent, `None`, empty
string, ...), and the name `note_or_empty` is defined nowhere in the repository. -/
def msgNoteOrEmpty : String := "NameError: name note_or_empty is not defined"

/-- The `AttributeError` CPython raises when `.strip()` is applied to a truthy
non-string `session_length` value. -/
def msgStripAttr : String := "AttributeError: object has no attribute strip"

/-- `score_eye_entry(ui)`, RAW_MAX 110.  Unlike every sibling scorer this one can
raise: its `session_length` line reads
`(ui.get("session_length") or note_or_empty(ui.get("session_length"))).strip()`,
and `note_or_empty` is an undefined name, so a falsy `session_length` aborts the
scorer with a `NameError`. -/
def score_eye_entry (ui : VMap) : Except String ℚ := do
  let strain := safe_int (ui kStrainLevel) 0
  let session : String ←
    match ui kSessionLength with
    | Value.str s =>
        if s == "" then Except.error msgNoteOrEmpty else Except.ok s.trim
    | v => if truthy v then Except.error msgStripAttr else Except.error msgNoteOrEmpty
  let raw : ℚ :=
    (strain : ℚ) * 4
    + eye_session_points session
    + min ((getStrs ui kSymptoms).map eye_symptom_points).sum 30
    + eye_lighting_points (getStr ui kLighting)
    + eye_brightness_points (getStr ui kScreenBrightness)
    + (if isTrue (ui kGlare) then 10 else 0)
    + (if isFalse (ui kDistanceCheck) then 6 else 0)
    + eye_rule_points (getStr ui kRule202020)
    - (if isTrue (ui kUsedDrops) then 2 else 0)
  pure (normalize_score raw 110)

/-- The `water_intake` threshold ladder of `score_hydration_entry`. -/
def hydration_water_points (water : ℤ) : ℚ :=
  if water ≤ 2 then 35
  else if 3 ≤ water ∧ water ≤ 4 then 25
  else if 5 ≤ water ∧ water ≤ 6 then 15
  else if 7 ≤ water ∧ water ≤ 9 then 6
  else if 10 ≤ water ∧ water ≤ 13 then 2
  else 0

/-- The `caffeine_intake` ladder of `score_hydration_entry`: note the middle rungs
test exact equality (`== 2`, `== 3`, `== 4`), so a fractional intake strictly
between 1 and 5 that is not one of 2, 3, 4 falls through every branch. -/
def hydration_caffeine_points (caffeine : ℚ) : ℚ :=
  if caffeine ≤ 1 then 0
  else if caffeine = 2 then 5
  else if caffeine = 3 then 10
  else if caffeine = 4 then 15
  else if 5 ≤ caffeine then 20
  else 0

/-- The `sugary_drinks` ladder of `score_hydration_entry` (same exact-equality shape). -/
def hydration_sugary_points (sugary : ℚ) : ℚ :=
  if sugary = 0 then 0
  else if sugary = 1 then 5
  else if sugary = 2 then 10
  else if sugary = 3 then 15
  else if 4 ≤ sugary then 20
  else 0

/-- Points for the `urine_color` label in `score_hydration_entry`. -/
def hydration_urine_points : String → ℚ
  | "Yellow (Okay)" => 6
  | "Dark Yellow" => 16
  | "Amber/Brown" => 28
  | _ => 0

/-- Points for the `thirst_level` label in `score_hydration_entry`. -/
def hydration_thirst_points : String → ℚ
  | "Mildly Thirsty" => 10
  | "Very Thirsty / Parched" => 22
  | _ => 0

/-- The `symptoms` points table of `score_hydration_entry`. -/
def hydration_symptom_points : String → ℚ
  | "Dry Mouth/Lips" => 8
  | "Headache" => 10
  | "Dizziness" => 12
  | "Fatigue" => 8
  | _ => 0

/-- `score_hydration_entry(ui)`, RAW_MAX 100. -/
def score_hydration_entry (ui : VMap) : ℚ :=
  let raw : ℚ :=
    hydration_water_points (safe_int (ui kWaterIntake) 0)
    + hydration_caffeine_points (safe_float (ui kCaffeineIntake) 0)
    + hydration_sugary_points (safe_float (ui kSugaryDrinks) 0)
    + (if isFalse (ui kBottleOnDesk) then 6 else 0)
    + hydration_urine_points (getStr ui kUrineColor)
    + hydration_thirst_points (getStr ui kThirstLevel)
    + min ((getStrs ui kSymptoms).map hydration_symptom_points).sum 20
  normalize_score raw 100

/-- The `pain_level` contribution of `score_msk_entry`: `raw += pain * 4.5`, with no
cap applied (the adjacent comment says max 45, which only holds for pain ≤ 10). -/
def msk_pain_points (pain : ℤ) : ℚ := (pain : ℚ) * (9/2)

/-- Points for the `onset_timing` label in `score_msk_entry`. -/
def msk_onset_points : String → ℚ
  | "During Work" => 10
  | "End of Workday" => 14
  | "Morning / On waking" => 18
  | _ => 0

/-- Points for the `pain_nature` label in `score_msk_entry`. -/
def msk_nature_points : String → ℚ
  | "Mild Ache" => 4
  | "Stiffness/Tightness" => 10
  | "Sharp Pain" => 16
  | "Numbness/Tingling" => 22
  | _ => 0

/-- Points for the `neck_rom` label in `score_msk_entry`. -/
def msk_rom_points : String → ℚ
  | "Limited (Stiff)" => 10
  | "Painful Movement" => 16
  | _ => 0

/-- Points for the `seated_duration` label in `score_msk_entry`. -/
def msk_seated_points : String → ℚ
  | "1 hour" => 8
  | "2 hours" => 14
  | "3+ hours" => 22
  | _ => 0

/-- `score_msk_entry(ui)`, RAW_MAX 120. -/
def score_msk_entry (ui : VMap) : ℚ :=
  let raw : ℚ :=
    msk_pain_points (safe_int (ui kPainLevel) 0)
    + msk_onset_points (getStr ui kOnsetTiming)
    + min ((pyLen (ui kFocusArea) : ℚ) * 5) 20
    + msk_nature_points (getStr ui kPainNature)
    + msk_rom_points (getStr ui kNeckRom)
    + msk_seated_points (getStr ui kSeatedDuration)
    + (if isTrue (ui kMorningStiffness) then 10 else 0)
    + (if isFalse (ui kGoodPosture) then 10 else 0)
    + min ((pyLen (ui kTriggers) : ℚ) * 4) 16
    + (if isTrue (ui kImpactWork) then 10 else 0)
    + (if isTrue (ui kImpactSleep) then 12 else 0)
    - min ((pyLen (ui kReliefMethods) : ℚ) * 3) 9
  normalize_score raw 120

/-- `score_baseline_entry(ui)`, RAW_MAX 110. -/
def score_baseline_entry (ui : VMap) : ℚ :=
  let height_cm := safe_float (ui kHeight) 0
  let weight_kg := safe_float (ui kWeight) 0
  let bmi : ℚ :=
    if 0 < height_cm ∧ 0 < weight_kg then
      weight_kg / ((height_cm / 100) * (height_cm / 100))
    else 0
  let sys := safe_float (ui kBpSystolic) 0
  let dia := safe_float (ui kBpDiastolic) 0
  let rhr := safe_float (ui kRhr) 0
  let activity := getStr ui kActivityLevel
  let waist := safe_float (ui kWaistCm) 0
  let raw : ℚ :=
    (if 35 ≤ bmi then 32 else if 30 ≤ bmi then 22 else if 25 ≤ bmi then 10 else 0)
    + (if 140 ≤ sys ∨ 90 ≤ dia then 24
       else if 130 ≤ sys ∨ 80 ≤ dia then 14
       else if 120 ≤ sys ∧ dia < 80 then 6 else 0)
    + (if 100 ≤ rhr then 18 else if 90 ≤ rhr then 12 else if 80 ≤ rhr then 6
       else if rhr < 60 ∧ 0 < rhr then 2 else 0)
    + (if activity = "Sedentary" then 14 else if activity = "Moderately active" then 4 else 0)
    + (if 0 < waist then (if 102 ≤ waist then 14 else if 94 ≤ waist then 10 else 0) else 0)
  normalize_score raw 110

/-- `score_longitudinal_entry(ui)`, RAW_MAX 140. -/
def score_longitudinal_entry (ui : VMap) : ℚ :=
  let glucose := safe_float (ui kGlucose) 0
  let hba1c := safe_float (ui kHba1c) 0
  let chol := safe_float (ui kCholesterol) 0
  let tg := safe_float (ui kTriglycerides) 0
  let vit_d := safe_float (ui kVitD) 0
  let vit_b12 := safe_float (ui kVitB12) 0
  let raw : ℚ :=
    (if 126 ≤ glucose then 24 else if 100 ≤ glucose then 12 else 0)
    + (if 13/2 ≤ hba1c then 28 else if 57/10 ≤ hba1c then 14 else 0)
    + (if 240 ≤ chol then 20 else if 200 ≤ chol then 10 else 0)
    + (if 500 ≤ tg then 30 else if 200 ≤ tg then 20 else if 150 ≤ tg then 10 else 0)
    + (if 0 < vit_d ∧ vit_d < 20 then 10 else 0)
    + (if 0 < vit_b12 ∧ vit_b12 < 200 then 10 else 0)
  normalize_score raw 140

/-- `trend_penalty(values)`: values oldest→newest; uses the last two values of the
list positionally (`values[-2]`, `values[-1]`), returns 0 when fewer than two values
exist or when `values[-2] ≤ 0`, else maps the relative change through the
±threshold ladder. -/
def trend_penalty (values : List ℚ) : ℚ :=
  if values.length < 2 then 0
  else
    match values.reverse with
    | lastv :: prev :: _ =>
        if prev ≤ 0 then 0
        else
          let change := (lastv - prev) / prev
          if 1/5 ≤ change then 15
          else if 1/10 ≤ change then 8
          else if change ≤ -(1/10) then -6
          else 0
    | _ => 0

/-- A history row of the scoring pipeline: `row.get("user_input", {})` is the only
field the core reads, an absent mapping being the empty one. -/
structure Row where
  user_input : VMap

/-- `history[-1].get("user_input", {})` (the empty mapping on an empty history;
every caller guards non-emptiness). -/
def latest_user_input (history : List Row) : VMap :=
  match history.getLast? with
  | some r => r.user_input
  | Option.none => emptyUI

/-- The marker value series `[safe_float(row["user_input"].get(k), 0) for row in history[-3:]]`
that `longitudinal_with_trend` builds for each of the four lab markers. -/
def marker_values (history : List Row) (k : String) : List ℚ :=
  (get_last_n history 3).map (fun r => safe_float (r.user_input k) 0)

/-- The four lab markers examined by `longitudinal_with_trend`. -/
def markers : List String := [kGlucose, kHba1c, kCholesterol, kTriglycerides]

/-- `longitudinal_with_trend(history)`: 70% latest entry score + 30% of the latest
score shifted by the clamped sum of the four marker trend penalties. -/
def longitudinal_with_trend (history : List Row) : ℚ :=
  if history.isEmpty then 0
  else
    let latest_score := score_longitudinal_entry (latest_user_input history)
    let glucose_vals := marker_values history kGlucose
    let hba1c_vals := marker_values history kHba1c
    let chol_vals := marker_values history kCholesterol
    let tg_vals := marker_values history kTriglycerides
    let penalty := trend_penalty glucose_vals + trend_penalty hba1c_vals
      + trend_penalty chol_vals + trend_penalty tg_vals
    let penalty := clamp penalty (-10) 15
    clamp (70/100 * latest_score + 30/100 * clamp (latest_score + penalty) 0 100) 0 100

/-- `tab_score_from_history(history, score_fn, window)`. -/
def tab_score_from_history (history : List Row) (score_fn : VMap → Except String ℚ)
    (window : ℕ) : Except String ℚ :=
  if history.isEmpty then Except.ok 0
  else do
    let last_n := get_last_n history window
    let entry_scores ← last_n.mapM (fun r => score_fn r.user_input)
    compute_weighted_recent_score entry_scores

/-- The slow-changing workspace weights `[0.60, 0.30, 0.10]`, newest first. -/
def slow_weights : List ℚ := [60/100, 30/100, 10/100]

/-- `workspace_score_from_history(history)`: last 3 entries, plain weighted average,
no spike term. -/
def workspace_score_from_history (history : List Row) : Except String ℚ :=
  if history.isEmpty then Except.ok 0
  else do
    let scores := (get_last_n history 3).map (fun r => score_workspace_entry r.user_input)
    let scores_newest_first := scores.reverse
    let weights := slow_weights.take scores_newest_first.length
    let avg ← weighted_average scores_newest_first weights
    pure (clamp avg 0 100)

/-- `baseline_score_from_history(history)`: latest entry only. -/
def baseline_score_from_history (history : List Row) : ℚ :=
  if history.isEmpty then 0
  else score_baseline_entry (latest_user_input history)

/-! The composite index and the global pressure blend. -/

def dMental : String := "mental"
def dSleep : String := "sleep"
def dMsk : String := "msk"
def dEye : String := "eye"
def dHydration : String := "hydration"
def dWorkspace : String := "workspace"
def dBaseline : String := "baseline"
def dLongitudinal : String := "longitudinal"
def dProductivity : String := "productivity"

/-- The fixed WHI weight table of `compute_whi`, in its iteration order. -/
def whi_weights : List (String × ℚ) :=
  [(dMental, 22/100), (dSleep, 20/100), (dMsk, 18/100), (dEye, 15/100),
   (dHydration, 10/100), (dWorkspace, 8/100), (dBaseline, 4/100), (dLongitudinal, 3/100)]

/-- `compute_whi(scores)`: iterate the weight table, `scores.get(k, 0.0)` per domain,
divide by the weight total, clamp.  The score map is modelled as a partial lookup
(`Option ℚ`), a missing key reading as 0.0. -/
def compute_whi (scores : String → Option ℚ) : ℚ :=
  let total := (whi_weights.map (fun kw => ((scores kw.1).getD 0) * kw.2)).sum
  let total_w := (whi_weights.map (fun kw => kw.2)).sum
  if total_w ≤ 0 then 0 else clamp (total / total_w) 0 100

/-- `apply_global_pressure(local, whi, pressure_factor)`:
`clamp(0.70 * local + 0.30 * (whi * pressure_factor), 0, 100)`. -/
def apply_global_pressure (local_score whi pressure_factor : ℚ) : ℚ :=
  clamp (70/100 * local_score + 30/100 * (whi * pressure_factor)) 0 100

/-- Python `round(x, 1)`, modelled as rounding `10x` to the nearest integer (CPython
uses half-even on the underlying binary float at exact ties; no settled statement
depends on a tie). -/
def round1 (x : ℚ) : ℚ := ((round (10 * x) : ℤ) : ℚ) / 10

/-- The per-tab histories `compute_all_scores` loads from `data_dir` (file loading
is the I/O layer; the core's behaviour is a function of these lists). -/
structure Histories where
  eye : List Row
  workspace : List Row
  hydration : List Row
  msk : List Row
  baseline : List Row
  longitudinal : List Row
  mental : List Row
  sleep : List Row
  productivity : List Row

/-- The output dictionary of `compute_all_scores`. -/
structure ScoresOutput where
  workday_health_index : ℚ
  local_scores : List (String × ℚ)
  final_scores : List (String × ℚ)

/-- Lifts a never-raising scorer to the `Except`-valued shape `tab_score_from_history`
expects (only `score_eye_entry` can actually raise). -/
def pureScorer (f : VMap → ℚ) : VMap → Except String ℚ := fun ui => Except.ok (f ui)

/-- `compute_all_scores(data_dir)` as a function of the loaded histories: local
scores per tab, WHI over them, then the global-pressure blend per tab, everything
reported rounded to one decimal. -/
def compute_all_scores (hs : Histories) : Except String ScoresOutput := do
  let eyeS ← tab_score_from_history hs.eye score_eye_entry 5
  let hydrationS ← tab_score_from_history hs.hydration (pureScorer score_hydration_entry) 5
  let mskS ← tab_score_from_history hs.msk (pureScorer score_msk_entry) 5
  let workspaceS ← workspace_score_from_history hs.workspace
  let baselineS := baseline_score_from_history hs.baseline
  let longitudinalS := if hs.longitudinal.isEmpty then 0 else longitudinal_with_trend hs.longitudinal
  let mentalS ← tab_score_from_history hs.mental (pureScorer (fun _ => 0)) 5
  let sleepS ← tab_score_from_history hs.sleep (pureScorer (fun _ => 0)) 5
  let productivityS ← tab_score_from_history hs.productivity (pureScorer (fun _ => 0)) 5
  let local_scores : List (String × ℚ) :=
    [(dEye, eyeS), (dHydration, hydrationS), (dMsk, mskS), (dWorkspace, workspaceS),
     (dBaseline, baselineS), (dLongitudinal, longitudinalS), (dMental, mentalS),
     (dSleep, sleepS), (dProductivity, productivityS)]
  let whi := compute_whi (fun k => local_scores.lookup k)
  let final_scores := local_scores.map (fun kv => (kv.1, apply_global_pressure kv.2 whi (35/100)))
  pure ⟨round1 whi, local_scores.map (fun kv => (kv.1, round1 kv.2)),
    final_scores.map (fun kv => (kv.1, round1 kv.2))⟩

/-! The weekly-metrics half of the source: time windows and the hydration
compliance rule. -/

/-- A history row as the weekly-metrics functions read it: `timestamp` models
`parse_ts(row.get("timestamp", ""))` — the parsed moment, measured in days from an
arbitrary epoch, `Option.none` when the timestamp is absent or unparseable (such a
row is skipped by every window filter). -/
structure TRow where
  timestamp : Option ℚ
  user_input : VMap

/-- `filter_last_days(history, days)` with the evaluation moment `now` made explicit
(the source reads `datetime.now()`): keeps rows with a parseable timestamp
`ts ≥ now − days`. -/
def filter_last_days (now : ℚ) (history : List TRow) (days : ℚ) : List TRow :=
  let cutoff := now - days
  history.filter (fun row =>
    match row.timestamp with
    | some ts => decide (cutoff ≤ ts)
    | Option.none => false)

/-- `filter_prev_week(history)` with `now` explicit: keeps rows with a parseable
timestamp in the half-open interval `[now − 14, now − 7)`. -/
def filter_prev_week (now : ℚ) (history : List TRow) : List TRow :=
  let start := now - 14
  let finish := now - 7
  history.filter (fun row =>
    match row.timestamp with
    | some ts => decide (start ≤ ts ∧ ts < finish)
    | Option.none => false)

/-- `hydration_compliant(ui)`: intake ≥ 8 (as entered), urine color not one of the
two dark labels, thirst level not the parched label. -/
def hydration_compliant (ui : VMap) : Bool :=
  let water := safe_float (ui kWaterIntake) 0
  let urine := getStr ui kUrineColor
  let thirst := getStr ui kThirstLevel
  if water < 8 then false
  else if urine = "Dark Yellow" ∨ urine = "Amber/Brown" then false
  else if thirst = "Very Thirsty / Parched" then false
  else true

/-! Spec-side definitions (for refinement comparison) and concrete inputs used by
the theorems below. -/

/-- Modelled from the spec (§4.3), for comparison with the code's `trend_penalty`:
the percent change is taken between the second-most-recent and most-recent
NON-ZERO values of the marker series, mapped through the same penalty ladder. -/
def spec_trend_penalty (values : List ℚ) : ℚ :=
  match (values.filter (fun v => !(v == 0))).reverse with
  | lastv :: prev :: _ =>
      let change := (lastv - prev) / prev
      if 1/5 ≤ change then 15
      else if 1/10 ≤ change then 8
      else if change ≤ -(1/10) then -6
      else 0
  | _ => 0

/-- Modelled from the spec (§4.3), for comparison: `longitudinal_with_trend` with
the spec's non-zero-paired trend penalty in place of the code's positional one. -/
def spec_longitudinal_with_trend (history : List Row) : ℚ :=
  if history.isEmpty then 0
  else
    let latest_score := score_longitudinal_entry (latest_user_input history)
    let penalty := spec_trend_penalty (marker_values history kGlucose)
      + spec_trend_penalty (marker_values history kHba1c)
      + spec_trend_penalty (marker_values history kCholesterol)
      + spec_trend_penalty (marker_values history kTriglycerides)
    let penalty := clamp penalty (-10) 15
    clamp (70/100 * latest_score + 30/100 * clamp (latest_score + penalty) 0 100) 0 100

/-- The recency-weighted average named by the spec, read off
`compute_weighted_recent_score`: newest-first scores dotted with the weight prefix,
divided by the sum of the weights actually used. -/
def recent_wavg (scores : List ℚ) : ℚ :=
  (List.zipWith (fun a b => a * b) scores.reverse (base_weights.take scores.length)).sum
    / (base_weights.take scores.length).sum

/-- The `final_scores` mapping `compute_all_scores` emits (empty when the
computation aborts with an exception). -/
def final_scores_of (hs : Histories) : List (String × ℚ) :=
  match compute_all_scores hs with
  | Except.ok out => out.final_scores
  | Except.error _ => []

/-- An entry whose only present field is `caffeine_intake`. -/
def caffeine_only (c : ℚ) : VMap :=
  fun k => if k = kCaffeineIntake then Value.num c else Value.none

/-- An entry whose only present field is `pain_level`. -/
def pain_only (p : ℚ) : VMap :=
  fun k => if k = kPainLevel then Value.num p else Value.none

/-- A longitudinal entry whose only present field is `glucose`. -/
def glucose_row (g : ℚ) : Row :=
  ⟨fun k => if k = kGlucose then Value.num g else Value.none⟩

/-- Glucose series 100, (absent → 0), 120: the input separating the code's
positional trend pairing from the spec's non-zero pairing. -/
def c2_history : List Row := [glucose_row 100, ⟨emptyUI⟩, glucose_row 120]

/-- A one-entry longitudinal history, used to instantiate the amended C2 theorem. -/
def c2_witness_history : List Row := [glucose_row 100]

/-- A metrics row one day old. -/
def trow1 : TRow := ⟨some (-1), emptyUI⟩

/-- All nine tab histories empty. -/
def empty_histories : Histories := ⟨[], [], [], [], [], [], [], [], []⟩

/-! Helper lemmas shared by the claim theorems. -/

theorem except_bind_ok {α β : Type} (a : α) (f : α → Except String β) :
    (Except.ok a >>= f) = f a := rfl

theorem except_bind_error {α β : Type} (e : String) (f : α → Except String β) :
    ((Except.error e : Except String α) >>= f) = Except.error e := rfl

theorem clamp_mem (x lo hi : ℚ) (h : lo ≤ hi) :
    lo ≤ clamp x lo hi ∧ clamp x lo hi ≤ hi := by
  unfold clamp
  exact ⟨le_max_left _ _, max_le h (min_le_left _ _)⟩

theorem normalize_score_mem (raw rmax : ℚ) :
    0 ≤ normalize_score raw rmax ∧ normalize_score raw rmax ≤ 100 := by
  unfold normalize_score
  split
  · norm_num
  · exact clamp_mem _ _ _ (by norm_num)

theorem compute_whi_mem (scores : String → Option ℚ) :
    0 ≤ compute_whi scores ∧ compute_whi scores ≤ 100 := by
  unfold compute_whi
  simp only []
  split
  · norm_num
  · exact clamp_mem _ _ _ (by norm_num)

theorem sum_zipWith_nonneg (s : List ℚ) :
    ∀ w : List ℚ, (∀ x ∈ s, 0 ≤ x) → (∀ x ∈ w, 0 ≤ x) →
      0 ≤ (List.zipWith (fun a b => a * b) s w).sum := by
  induction s with
  | nil => intro w _ _; simp
  | cons a t ih =>
      intro w hs hw
      cases w with
      | nil => simp
      | cons b u =>
          simp only [List.zipWith_cons_cons, List.sum_cons]
          have h1 : 0 ≤ a * b :=
            mul_nonneg (hs a (by simp)) (hw b (by simp))
          have h2 := ih u (fun x hx => hs x (by simp [hx])) (fun x hx => hw x (by simp [hx]))
          linarith

theorem weighted_average_ok (s w : List ℚ) (hne : s ≠ []) (hlen : s.length = w.length)
    (hw : 0 < w.sum) :
    weighted_average s w =
      Except.ok ((List.zipWith (fun a b => a * b) s w).sum / w.sum) := by
  unfold weighted_average
  rw [if_neg (by simpa [List.isEmpty_iff] using hne), if_neg (by simp [hlen])]
  simp only []
  rw [if_neg (not_le.2 hw)]

theorem base_weights_mem_nonneg : ∀ x ∈ base_weights, (0 : ℚ) ≤ x := by
  intro x hx
  simp only [base_weights, List.mem_cons, List.not_mem_nil, or_false] at hx
  rcases hx with rfl | rfl | rfl | rfl | rfl <;> norm_num

theorem base_weights_take_sum_pos (n : ℕ) (h1 : 1 ≤ n) :
    0 < (base_weights.take n).sum := by
  obtain ⟨m, rfl⟩ : ∃ m, n = m + 1 := ⟨n - 1, by omega⟩
  have htail : 0 ≤ (([25/100, 15/100, 12/100, 8/100] : List ℚ).take m).sum := by
    refine List.sum_nonneg ?_
    intro x hx
    have hx2 := List.take_subset m _ hx
    simp only [List.mem_cons, List.not_mem_nil, or_false] at hx2
    rcases hx2 with rfl | rfl | rfl | rfl <;> norm_num
  have hsplit : base_weights.take (m + 1)
      = (40/100 : ℚ) :: (([25/100, 15/100, 12/100, 8/100] : List ℚ).take m) := rfl
  rw [hsplit, List.sum_cons]
  linarith

theorem foldl_max_le_of (t : List ℚ) (c : ℚ) (ht : ∀ x ∈ t, x ≤ c) :
    ∀ a : ℚ, a ≤ c → t.foldl max a ≤ c := by
  induction t with
  | nil => intro a ha; exact ha
  | cons b u ih =>
      intro a ha
      exact ih (fun x hx => ht x (by simp [hx])) (max a b)
        (max_le ha (ht b (by simp)))

theorem pymax_le (l : List ℚ) (c : ℚ) (hc : ∀ x ∈ l, x ≤ c) (hl : l ≠ []) :
    pymax l ≤ c := by
  cases l with
  | nil => exact absurd rfl hl
  | cons h t =>
      exact foldl_max_le_of t c (fun x hx => hc x (by simp [hx])) h (hc h (by simp))

/-! Claim theorems. -/

/-- C1: the claim that every entry scorer returns a float in [0,100] and never
raises is violated by the code: on a mapping in which `session_length` is absent
(here the empty mapping), `score_eye_entry` aborts with a `NameError`, because its
`session_length` line calls the undefined helper `note_or_empty` whenever the field
is falsy.  No per-field default is substituted; the whole computation fails. -/
theorem score_eye_entry_raises_on_missing_session :
    score_eye_entry emptyUI = Except.error msgNoteOrEmpty := rfl

/-- C4 counterexample: with `scores = []` and `weights = [1.0]` the lengths differ,
yet `weighted_average` returns `0.0` instead of raising — the emptiness check
precedes the length check — refuting the claimed "raises if and only if the lengths
differ". -/
theorem weighted_average_empty_mismatch_no_raise :
    weighted_average [] [1] = Except.ok 0 ∧
      List.length ([] : List ℚ) ≠ List.length [(1 : ℚ)] := by
  exact ⟨rfl, by decide⟩

/-- C4 (amended): `weighted_average` raises exactly when its scores list is
non-empty and the two lengths differ (an empty scores list short-circuits to 0.0
before the length check); it remains the only deliberate raise in the core, the
eye scorer's `NameError` being an accidental defect. -/
theorem weighted_average_raises_iff (scores weights : List ℚ) :
    (∃ e, weighted_average scores weights = Except.error e) ↔
      scores ≠ [] ∧ scores.length ≠ weights.length := by
  rcases eq_or_ne scores [] with h | h
  · subst h
    simp [weighted_average]
  · unfold weighted_average
    rw [if_neg (by simpa [List.isEmpty_iff] using h)]
    by_cases hl : scores.length = weights.length
    · rw [if_neg (by simp [hl])]
      constructor
      · rintro ⟨e, he⟩
        simp only [] at he
        split at he <;> simp at he
      · rintro ⟨-, hne⟩
        exact absurd hl hne
    · rw [if_pos hl]
      exact ⟨fun _ => ⟨h, hl⟩, fun _ => ⟨msgLenMismatch, rfl⟩⟩

/-- C10: in `score_hydration_entry`, any caffeine intake strictly between 1 and 5
other than exactly 2, 3 or 4 contributes 0 raw points, while an intake of exactly 2
contributes 5 — so the hydration score is not monotonically non-decreasing in
caffeine intake: 2.5 units score strictly below 2 units, all else equal. -/
theorem hydration_caffeine_gap (v : ℚ) (h1 : 1 < v) (h2 : v < 5)
    (h3 : v ≠ 2) (h4 : v ≠ 3) (h5 : v ≠ 4) :
    hydration_caffeine_points v = 0 ∧ hydration_caffeine_points 2 = 5 ∧
      score_hydration_entry (caffeine_only (5/2)) < score_hydration_entry (caffeine_only 2) := by
  refine ⟨?_, by norm_num [hydration_caffeine_points], ?_⟩
  · unfold hydration_caffeine_points
    rw [if_neg (by linarith), if_neg h3, if_neg h4, if_neg h5, if_neg (by linarith)]
  · norm_num +decide [score_hydration_entry, caffeine_only, hydration_water_points,
      hydration_caffeine_points, hydration_sugary_points, hydration_urine_points,
      hydration_thirst_points, hydration_symptom_points, getStr, getStrs, isFalse,
      safe_int, safe_float, normalize_score, clamp, kWaterIntake, kCaffeineIntake,
      kSugaryDrinks, kBottleOnDesk, kUrineColor, kThirstLevel, kSymptoms]

/-- C10 witness: the theorem instantiated at caffeine intake 2.5. -/
theorem hydration_caffeine_gap_witness :
    hydration_caffeine_points (5/2) = 0 ∧ hydration_caffeine_points 2 = 5 ∧
      score_hydration_entry (caffeine_only (5/2)) < score_hydration_entry (caffeine_only 2) :=
  hydration_caffeine_gap (5/2) (by norm_num) (by norm_num) (by norm_num) (by norm_num)
    (by norm_num)

/-- C7: `hydration_compliant` returns `True` exactly when the water intake (units
as entered, unconverted) is at least 8, the urine color is neither "Dark Yellow"
nor "Amber/Brown", and the thirst level is not "Very Thirsty / Parched". -/
theorem hydration_compliant_iff (ui : VMap) :
    hydration_compliant ui = true ↔
      8 ≤ safe_float (ui kWaterIntake) 0 ∧
      getStr ui kUrineColor ≠ "Dark Yellow" ∧ getStr ui kUrineColor ≠ "Amber/Brown" ∧
      getStr ui kThirstLevel ≠ "Very Thirsty / Parched" := by
  unfold hydration_compliant
  simp only []
  split_ifs with hw hu ht
  · simp only [Bool.false_eq_true, false_iff]
    rintro ⟨h8, -, -, -⟩
    linarith
  · simp only [Bool.false_eq_true, false_iff]
    rintro ⟨-, hdy, hab, -⟩
    rcases hu with h | h
    · exact hdy h
    · exact hab h
  · simp only [Bool.false_eq_true, false_iff]
    rintro ⟨-, -, -, hp⟩
    exact hp ht
  · simp only [true_iff]
    push_neg at hu
    exact ⟨le_of_not_lt hw, hu.1, hu.2, ht⟩

/-- C3 counterexample: at `pain_level = 11` the raw contribution of the pain field
is `11 × 4.5 = 49.5`, not `min(49.5, 45) = 45` — `score_msk_entry` applies no cap —
and the uncapped product is what reaches the musculoskeletal score. -/
theorem msk_pain_cap_counterexample :
    msk_pain_points 11 = 99/2 ∧ min ((11 : ℚ) * (9/2)) 45 = 45 ∧ (99/2 : ℚ) ≠ 45 ∧
      score_msk_entry (pain_only 11) = normalize_score (99/2) 120 := by
  refine ⟨by norm_num [msk_pain_points], by norm_num, by norm_num, ?_⟩
  norm_num +decide [score_msk_entry, pain_only, msk_pain_points, msk_onset_points,
    msk_nature_points, msk_rom_points, msk_seated_points, getStr, getStrs, pyLen,
    isTrue, isFalse, safe_int, normalize_score, clamp, kPainLevel, kOnsetTiming,
    kFocusArea, kPainNature, kNeckRom, kSeatedDuration, kMorningStiffness,
    kGoodPosture, kTriggers, kImpactWork, kImpactSleep, kReliefMethods]

/-- C3 (amended): the `pain_level` contribution to the raw accumulator is
`pain × 4.5` with no cap; on the documented 0–10 pain scale — indeed whenever
`pain ≤ 10` — it coincides with `min(pain × 4.5, 45)`, but beyond 10 the product
enters `score_msk_entry` uncapped. -/
theorem msk_pain_points_amended (n : ℤ) (hn : n ≤ 10) :
    msk_pain_points n = min ((n : ℚ) * (9/2)) 45 ∧
      score_msk_entry (pain_only (n : ℚ)) = normalize_score ((n : ℚ) * (9/2)) 120 := by
  have hcast : (n : ℚ) ≤ 10 := by exact_mod_cast hn
  have hsi : safe_int (Value.num (n : ℚ)) 0 = n := by
    simp only [safe_int]
    split
    · rw [show -((n : ℚ)) = (((-n : ℤ)) : ℚ) by push_cast; ring, Int.floor_intCast, neg_neg]
    · exact Int.floor_intCast n
  constructor
  · unfold msk_pain_points
    rw [min_eq_left (by linarith)]
  · norm_num +decide [score_msk_entry, pain_only, msk_pain_points, msk_onset_points,
      msk_nature_points, msk_rom_points, msk_seated_points, getStr, getStrs, pyLen,
      isTrue, isFalse, hsi, normalize_score, clamp, kPainLevel, kOnsetTiming,
      kFocusArea, kPainNature, kNeckRom, kSeatedDuration, kMorningStiffness,
      kGoodPosture, kTriggers, kImpactWork, kImpactSleep, kReliefMethods]

/-- C3 witness: the amended theorem instantiated at the top of the pain scale. -/
theorem msk_pain_points_amended_witness :
    msk_pain_points 10 = min (((10 : ℤ) : ℚ) * (9/2)) 45 ∧
      score_msk_entry (pain_only ((10 : ℤ) : ℚ)) = normalize_score (((10 : ℤ) : ℚ) * (9/2)) 120 :=
  msk_pain_points_amended 10 (by decide)

/-- C8: for one evaluation moment `now`, the current-week window (last 7 days,
`ts ≥ now − 7`) and the previous-week window (`now − 14 ≤ ts < now − 7`) are
disjoint: no row selected by `filter_last_days(·, 7)` is also selected by
`filter_prev_week`. -/
theorem weekly_windows_disjoint (now : ℚ) (history : List TRow) (row : TRow)
    (h : row ∈ filter_last_days now history 7) :
    row ∉ filter_prev_week now history := by
  intro hmem
  unfold filter_last_days at h
  unfold filter_prev_week at hmem
  have h1 := (List.mem_filter.1 h).2
  have h2 := (List.mem_filter.1 hmem).2
  cases hts : row.timestamp with
  | none =>
      rw [hts] at h1
      simp at h1
  | some ts =>
      rw [hts] at h1 h2
      simp only [decide_eq_true_eq] at h1 h2
      linarith [h2.2]

/-- C8 witness: a one-day-old row is in this week's window and not in last week's. -/
theorem weekly_windows_disjoint_witness :
    trow1 ∉ filter_prev_week 0 [trow1] :=
  weekly_windows_disjoint 0 [trow1] trow1 (by norm_num [filter_last_days, trow1])

/-- C5: the WHI weight table (mental 0.22, sleep 0.20, msk 0.18, eye 0.15,
hydration 0.10, workspace 0.08, baseline 0.04, longitudinal 0.03) sums to exactly 1;
with every one of the eight weighted domains at local score 50 the index is exactly
50; a domain missing from the score map contributes 0.0 (removing a key is the same
as scoring it 0); and the index lies in [0,100] for every score map. -/
theorem compute_whi_spec :
    ((whi_weights.map (fun kw => kw.2)).sum = 1) ∧
    (∀ scores : String → Option ℚ,
        (∀ kw ∈ whi_weights, scores kw.1 = some 50) → compute_whi scores = 50) ∧
    (∀ (scores : String → Option ℚ) (k : String), scores k = Option.none →
        compute_whi scores = compute_whi (fun j => if j = k then some 0 else scores j)) ∧
    (∀ scores : String → Option ℚ, 0 ≤ compute_whi scores ∧ compute_whi scores ≤ 100) := by
  refine ⟨by norm_num [whi_weights], ?_, ?_, compute_whi_mem⟩
  · intro scores h
    have h1 := h (dMental, 22/100) (by simp [whi_weights])
    have h2 := h (dSleep, 20/100) (by simp [whi_weights])
    have h3 := h (dMsk, 18/100) (by simp [whi_weights])
    have h4 := h (dEye, 15/100) (by simp [whi_weights])
    have h5 := h (dHydration, 10/100) (by simp [whi_weights])
    have h6 := h (dWorkspace, 8/100) (by simp [whi_weights])
    have h7 := h (dBaseline, 4/100) (by simp [whi_weights])
    have h8 := h (dLongitudinal, 3/100) (by simp [whi_weights])
    unfold compute_whi
    norm_num [whi_weights, h1, h2, h3, h4, h5, h6, h7, h8, clamp, min_def, max_def]
  · intro scores k hk
    have hpt : ∀ j : String,
        ((if j = k then some (0 : ℚ) else scores j).getD 0) = (scores j).getD 0 := by
      intro j
      by_cases hj : j = k
      · rw [if_pos hj, hj, hk]
        rfl
      · rw [if_neg hj]
    unfold compute_whi
    simp only [hpt]

/-- C5 witness: the all-fifty map scores exactly 50, and scoring a map without the
mental key is the same as scoring it with mental set to 0. -/
theorem compute_whi_spec_witness :
    compute_whi (fun _ => some 50) = 50 ∧
      compute_whi (fun _ => Option.none) =
        compute_whi (fun j => if j = dMental then some 0 else Option.none) :=
  ⟨compute_whi_spec.2.1 (fun _ => some 50) (fun _ _ => rfl),
   compute_whi_spec.2.2.1 (fun _ => Option.none) dMental rfl⟩

/-- C6: on a non-empty aggregation window (the aggregator passes at most 5 entry
scores) whose scores all lie in [0,100] and whose maximum is `pymax scores`, the
recency-weighted local score is exactly
`clamp(0.75 · weighted_average + 0.25 · max, 0, 100)` and is at least `0.25 · max`. -/
theorem compute_weighted_recent_score_spec (scores : List ℚ) (hne : scores ≠ [])
    (hlen : scores.length ≤ 5) (hmem : ∀ x ∈ scores, 0 ≤ x ∧ x ≤ 100) :
    compute_weighted_recent_score scores =
        Except.ok (clamp (75/100 * recent_wavg scores + 25/100 * pymax scores) 0 100) ∧
      25/100 * pymax scores ≤
        clamp (75/100 * recent_wavg scores + 25/100 * pymax scores) 0 100 := by
  have hlenw : scores.reverse.length = (base_weights.take scores.length).length := by
    simp only [List.length_reverse, List.length_take, base_weights]
    simp only [List.length_cons, List.length_nil]
    omega
  have hwsum : 0 < (base_weights.take scores.length).sum :=
    base_weights_take_sum_pos _ (by
      have := List.length_pos.2 hne
      omega)
  have hwa := weighted_average_ok scores.reverse (base_weights.take scores.length)
    (by simpa using hne) hlenw hwsum
  have hwavg0 : 0 ≤ recent_wavg scores := by
    unfold recent_wavg
    apply div_nonneg _ (le_of_lt hwsum)
    apply sum_zipWith_nonneg
    · intro x hx
      exact (hmem x (List.mem_reverse.1 hx)).1
    · intro x hx
      exact base_weights_mem_nonneg x (List.take_subset _ _ hx)
  have hM : pymax scores ≤ 100 := pymax_le _ _ (fun x hx => (hmem x hx).2) hne
  constructor
  · unfold compute_weighted_recent_score
    rw [if_neg (by simpa [List.isEmpty_iff] using hne)]
    simp only []
    rw [hwa, except_bind_ok]
    rfl
  · have hXM : 25/100 * pymax scores ≤
        75/100 * recent_wavg scores + 25/100 * pymax scores := by linarith
    have h14 : 25/100 * pymax scores ≤ 100 := by linarith
    calc 25/100 * pymax scores
        = min 100 (25/100 * pymax scores) := (min_eq_right h14).symm
      _ ≤ min 100 (75/100 * recent_wavg scores + 25/100 * pymax scores) :=
          min_le_min (le_refl 100) hXM
      _ ≤ clamp (75/100 * recent_wavg scores + 25/100 * pymax scores) 0 100 :=
          le_max_right _ _

/-- C6 witness: the theorem instantiated at the two-score window [50, 80]. -/
theorem compute_weighted_recent_score_spec_witness :
    compute_weighted_recent_score [50, 80] =
        Except.ok (clamp (75/100 * recent_wavg [50, 80] + 25/100 * pymax [50, 80]) 0 100) ∧
      25/100 * pymax [50, 80] ≤
        clamp (75/100 * recent_wavg [50, 80] + 25/100 * pymax [50, 80]) 0 100 :=
  compute_weighted_recent_score_spec [50, 80] (by decide) (by decide) (by decide)

/-- C2 counterexample: glucose series 100, (absent → 0), 120 over three entries.
The claim pairs the second-most-recent and most-recent NON-ZERO values
(100 → 120, +20% → penalty 15), but `trend_penalty` pairs the last two values
positionally (0 → 120) and returns 0 because `values[-2] ≤ 0`, so the code's
longitudinal score differs from the claimed one. -/
theorem longitudinal_trend_counterexample :
    trend_penalty (marker_values c2_history kGlucose) = 0 ∧
      spec_trend_penalty (marker_values c2_history kGlucose) = 15 ∧
      longitudinal_with_trend c2_history ≠ spec_longitudinal_with_trend c2_history := by
  refine ⟨?_, ?_, ?_⟩
  · norm_num +decide [trend_penalty, marker_values, c2_history, glucose_row, get_last_n,
      safe_float, emptyUI, kGlucose]
  · norm_num +decide [spec_trend_penalty, marker_values, c2_history, glucose_row, get_last_n,
      safe_float, emptyUI, kGlucose]
  · norm_num +decide [longitudinal_with_trend, spec_longitudinal_with_trend,
      trend_penalty, spec_trend_penalty, marker_values, c2_history, glucose_row,
      latest_user_input, get_last_n, score_longitudinal_entry, safe_float, emptyUI,
      kGlucose, kHba1c, kCholesterol, kTriglycerides, kVitD, kVitB12,
      normalize_score, clamp, min_def, max_def]

/-- C2 (amended): the percent change is taken positionally between `values[-2]` and
`values[-1]` of the marker series over the last up-to-3 entries (a missing marker
field reading as 0); a marker with fewer than two values contributes zero penalty,
as does one whose `values[-2]` is ≤ 0; the penalty ladder is
≥ +20% → +15, ≥ +10% → +8, ≤ −10% → −6, else 0; the four marker penalties are
summed and clamped to [−10, +15]; and the longitudinal local score equals
`clamp(0.70 · latest + 0.30 · clamp(latest + penalty, 0, 100), 0, 100)`. -/
theorem longitudinal_with_trend_amended (history : List Row) (hne : history ≠ []) :
    (∀ vs : List ℚ, vs.length < 2 → trend_penalty vs = 0) ∧
    (∀ (rest : List ℚ) (prev lastv : ℚ),
        trend_penalty (rest ++ [prev, lastv]) =
          if prev ≤ 0 then 0
          else if 1/5 ≤ (lastv - prev) / prev then 15
          else if 1/10 ≤ (lastv - prev) / prev then 8
          else if (lastv - prev) / prev ≤ -(1/10) then -6
          else 0) ∧
    longitudinal_with_trend history =
      clamp (70/100 * score_longitudinal_entry (latest_user_input history)
        + 30/100 * clamp (score_longitudinal_entry (latest_user_input history)
            + clamp ((markers.map (fun k => trend_penalty (marker_values history k))).sum)
                (-10) 15) 0 100)
        0 100 := by
  refine ⟨?_, ?_, ?_⟩
  · intro vs h
    unfold trend_penalty
    rw [if_pos h]
  · intro rest prev lastv
    unfold trend_penalty
    rw [if_neg (by simp)]
    rw [show (rest ++ [prev, lastv]).reverse = lastv :: prev :: rest.reverse by simp]
  · have hpen : (markers.map (fun k => trend_penalty (marker_values history k))).sum
        = trend_penalty (marker_values history kGlucose)
          + trend_penalty (marker_values history kHba1c)
          + trend_penalty (marker_values history kCholesterol)
          + trend_penalty (marker_values history kTriglycerides) := by
      simp [markers]
      ring
    rw [hpen]
    unfold longitudinal_with_trend
    rw [if_neg (by simpa [List.isEmpty_iff] using hne)]

/-- C2 witness: the amended characterization instantiated at a one-entry history
(where every marker penalty is zero). -/
theorem longitudinal_with_trend_amended_witness :
    (∀ vs : List ℚ, vs.length < 2 → trend_penalty vs = 0) ∧
    (∀ (rest : List ℚ) (prev lastv : ℚ),
        trend_penalty (rest ++ [prev, lastv]) =
          if prev ≤ 0 then 0
          else if 1/5 ≤ (lastv - prev) / prev then 15
          else if 1/10 ≤ (lastv - prev) / prev then 8
          else if (lastv - prev) / prev ≤ -(1/10) then -6
          else 0) ∧
    longitudinal_with_trend c2_witness_history =
      clamp (70/100 * score_longitudinal_entry (latest_user_input c2_witness_history)
        + 30/100 * clamp (score_longitudinal_entry (latest_user_input c2_witness_history)
            + clamp ((markers.map
                (fun k => trend_penalty (marker_values c2_witness_history k))).sum)
                (-10) 15) 0 100)
        0 100 :=
  longitudinal_with_trend_amended c2_witness_history (by
    simp [c2_witness_history])

theorem except_pure {α : Type} (a : α) : (pure a : Except String α) = Except.ok a := rfl

theorem compute_weighted_recent_score_ok_mem (scores : List ℚ) (r : ℚ)
    (h : compute_weighted_recent_score scores = Except.ok r) : 0 ≤ r ∧ r ≤ 100 := by
  unfold compute_weighted_recent_score at h
  split at h
  · injection h with h
    subst h
    norm_num
  · simp only [] at h
    cases hwa : weighted_average scores.reverse (base_weights.take scores.length) with
    | error e =>
        rw [hwa, except_bind_error] at h
        exact Except.noConfusion h
    | ok w =>
        rw [hwa, except_bind_ok, except_pure] at h
        injection h with h
        subst h
        exact clamp_mem _ _ _ (by norm_num)

theorem tab_score_from_history_ok_mem (history : List Row) (f : VMap → Except String ℚ)
    (w : ℕ) (r : ℚ) (h : tab_score_from_history history f w = Except.ok r) :
    0 ≤ r ∧ r ≤ 100 := by
  unfold tab_score_from_history at h
  split at h
  · injection h with h
    subst h
    norm_num
  · simp only [] at h
    cases hm : (get_last_n history w).mapM (fun row => f row.user_input) with
    | error e =>
        rw [hm, except_bind_error] at h
        exact Except.noConfusion h
    | ok scores =>
        rw [hm, except_bind_ok] at h
        exact compute_weighted_recent_score_ok_mem scores r h

theorem workspace_score_from_history_ok_mem (history : List Row) (r : ℚ)
    (h : workspace_score_from_history history = Except.ok r) : 0 ≤ r ∧ r ≤ 100 := by
  unfold workspace_score_from_history at h
  split at h
  · injection h with h
    subst h
    norm_num
  · simp only [] at h
    cases hwa : weighted_average
        ((get_last_n history 3).map (fun row => score_workspace_entry row.user_input)).reverse
        (slow_weights.take
          ((get_last_n history 3).map (fun row => score_workspace_entry row.user_input)).reverse.length) with
    | error e =>
        rw [hwa, except_bind_error] at h
        exact Except.noConfusion h
    | ok a =>
        rw [hwa, except_bind_ok, except_pure] at h
        injection h with h
        subst h
        exact clamp_mem _ _ _ (by norm_num)

theorem longitudinal_with_trend_mem (history : List Row) :
    0 ≤ longitudinal_with_trend history ∧ longitudinal_with_trend history ≤ 100 := by
  unfold longitudinal_with_trend
  split
  · norm_num
  · exact clamp_mem _ _ _ (by norm_num)

theorem baseline_score_from_history_mem (history : List Row) :
    0 ≤ baseline_score_from_history history ∧ baseline_score_from_history history ≤ 100 := by
  unfold baseline_score_from_history
  split
  · norm_num
  · unfold score_baseline_entry
    exact normalize_score_mem _ _

theorem apply_global_pressure_eval (l w : ℚ) (hl0 : 0 ≤ l) (hl1 : l ≤ 100)
    (hw0 : 0 ≤ w) (hw1 : w ≤ 100) :
    apply_global_pressure l w (35/100) = 70/100 * l + 105/1000 * w := by
  unfold apply_global_pressure clamp
  rw [show 70/100 * l + 30/100 * (w * (35/100)) = 70/100 * l + 105/1000 * w by ring]
  rw [min_eq_right (by linarith), max_eq_right (by linarith)]

theorem apply_global_pressure_le_805 (l w : ℚ) (hl0 : 0 ≤ l) (hl1 : l ≤ 100)
    (hw0 : 0 ≤ w) (hw1 : w ≤ 100) :
    apply_global_pressure l w (35/100) ≤ 805/10 := by
  rw [apply_global_pressure_eval l w hl0 hl1 hw0 hw1]
  linarith

theorem lookup_getD_zero (k : String) (l : List (String × ℚ))
    (h : ∀ kv ∈ l, kv.2 = 0) : (List.lookup k l).getD 0 = 0 := by
  induction l with
  | nil => rfl
  | cons kv t ih =>
      obtain ⟨a, b⟩ := kv
      have hb : b = 0 := h (a, b) (by simp)
      simp only [List.lookup]
      cases hka : k == a with
      | true => simp [hb]
      | false => simpa using ih (fun x hx => h x (by simp [hx]))

theorem round1_le_805 (x : ℚ) (hx : x ≤ 805/10) : round1 x ≤ 805/10 := by
  unfold round1
  have h1 : round ((10 : ℚ) * x) ≤ (805 : ℤ) := by
    rw [round_eq]
    calc ⌊(10 : ℚ) * x + 1/2⌋ ≤ ⌊(805 : ℚ) + 1/2⌋ := Int.floor_mono (by linarith)
      _ = 805 := by norm_num
  have h3 : ((round ((10 : ℚ) * x) : ℤ) : ℚ) ≤ 805 := by exact_mod_cast h1
  linarith

theorem final_scores_of_le (hs : Histories) :
    ∀ kv ∈ final_scores_of hs, kv.2 ≤ 805/10 := by
  unfold final_scores_of compute_all_scores
  cases h1 : tab_score_from_history hs.eye score_eye_entry 5 with
  | error e =>
      rw [except_bind_error]
      intro kv hkv
      simp at hkv
  | ok eyeS =>
  rw [except_bind_ok]
  cases h2 : tab_score_from_history hs.hydration (pureScorer score_hydration_entry) 5 with
  | error e =>
      rw [except_bind_error]
      intro kv hkv
      simp at hkv
  | ok hydrationS =>
  rw [except_bind_ok]
  cases h3 : tab_score_from_history hs.msk (pureScorer score_msk_entry) 5 with
  | error e =>
      rw [except_bind_error]
      intro kv hkv
      simp at hkv
  | ok mskS =>
  rw [except_bind_ok]
  cases h4 : workspace_score_from_history hs.workspace with
  | error e =>
      rw [except_bind_error]
      intro kv hkv
      simp at hkv
  | ok workspaceS =>
  rw [except_bind_ok]
  cases h5 : tab_score_from_history hs.mental (pureScorer (fun _ => 0)) 5 with
  | error e =>
      rw [except_bind_error]
      intro kv hkv
      simp at hkv
  | ok mentalS =>
  rw [except_bind_ok]
  cases h6 : tab_score_from_history hs.sleep (pureScorer (fun _ => 0)) 5 with
  | error e =>
      rw [except_bind_error]
      intro kv hkv
      simp at hkv
  | ok sleepS =>
  rw [except_bind_ok]
  cases h7 : tab_score_from_history hs.productivity (pureScorer (fun _ => 0)) 5 with
  | error e =>
      rw [except_bind_error]
      intro kv hkv
      simp at hkv
  | ok productivityS =>
  rw [except_bind_ok, except_pure]
  have he := tab_score_from_history_ok_mem _ _ _ _ h1
  have hh := tab_score_from_history_ok_mem _ _ _ _ h2
  have hm := tab_score_from_history_ok_mem _ _ _ _ h3
  have hw := workspace_score_from_history_ok_mem _ _ h4
  have hme := tab_score_from_history_ok_mem _ _ _ _ h5
  have hsl := tab_score_from_history_ok_mem _ _ _ _ h6
  have hp := tab_score_from_history_ok_mem _ _ _ _ h7
  have hb := baseline_score_from_history_mem hs.baseline
  have hlg : 0 ≤ (if hs.longitudinal.isEmpty then (0 : ℚ)
          else longitudinal_with_trend hs.longitudinal)
      ∧ (if hs.longitudinal.isEmpty then (0 : ℚ)
          else longitudinal_with_trend hs.longitudinal) ≤ 100 := by
    split
    · norm_num
    · exact longitudinal_with_trend_mem hs.longitudinal
  dsimp only
  intro kv hkv
  simp only [List.map_cons, List.map_nil, List.mem_cons, List.not_mem_nil, or_false] at hkv
  have hwhi := compute_whi_mem
  rcases hkv with rfl | rfl | rfl | rfl | rfl | rfl | rfl | rfl | rfl <;>
    exact round1_le_805 _
      (apply_global_pressure_le_805 _ _ (by tauto) (by tauto)
        (hwhi _).1 (hwhi _).2)

/-- C9: with the fixed pressure factor 0.35 and any local score and WHI in [0,100],
`apply_global_pressure` returns exactly `0.70 · local + 0.105 · WHI`, which is at
least `0.70 · local` and at most 80.5 — the upper clamp at 100 is unreachable —
and consequently no final score `compute_all_scores` emits exceeds 80.5. -/
theorem apply_global_pressure_spec :
    (∀ l w : ℚ, 0 ≤ l → l ≤ 100 → 0 ≤ w → w ≤ 100 →
        apply_global_pressure l w (35/100) = 70/100 * l + 105/1000 * w ∧
          70/100 * l ≤ apply_global_pressure l w (35/100) ∧
          apply_global_pressure l w (35/100) ≤ 805/10) ∧
    (∀ hs : Histories, ∀ kv ∈ final_scores_of hs, kv.2 ≤ 805/10) := by
  constructor
  · intro l w hl0 hl1 hw0 hw1
    have he := apply_global_pressure_eval l w hl0 hl1 hw0 hw1
    refine ⟨he, ?_, apply_global_pressure_le_805 l w hl0 hl1 hw0 hw1⟩
    rw [he]
    linarith
  · exact final_scores_of_le

/-- C9 witness: the blend evaluated at local = WHI = 50, and the eye final score of
an all-empty data directory (which is 0) bounded through the theorem. -/
theorem apply_global_pressure_spec_witness :
    (apply_global_pressure 50 50 (35/100) = 70/100 * 50 + 105/1000 * 50 ∧
      70/100 * 50 ≤ apply_global_pressure 50 50 (35/100) ∧
      apply_global_pressure 50 50 (35/100) ≤ 805/10) ∧
    ((dEye, (0 : ℚ)).2 ≤ 805/10) :=
  ⟨apply_global_pressure_spec.1 50 50 (by norm_num) (by norm_num) (by norm_num) (by norm_num),
   apply_global_pressure_spec.2 empty_histories (dEye, 0) (by
    have t1 : tab_score_from_history ([] : List Row) score_eye_entry 5 = Except.ok 0 := rfl
    have t2 : tab_score_from_history ([] : List Row) (pureScorer score_hydration_entry) 5
        = Except.ok 0 := rfl
    have t3 : tab_score_from_history ([] : List Row) (pureScorer score_msk_entry) 5
        = Except.ok 0 := rfl
    have t4 : workspace_score_from_history ([] : List Row) = Except.ok 0 := rfl
    have t5 : tab_score_from_history ([] : List Row) (pureScorer (fun _ => 0)) 5
        = Except.ok 0 := rfl
    have hW : compute_whi (fun k => List.lookup k
        [(dEye, (0 : ℚ)), (dHydration, 0), (dMsk, 0), (dWorkspace, 0), (dBaseline, 0),
          (dLongitudinal, 0), (dMental, 0), (dSleep, 0), (dProductivity, 0)]) = 0 := by
      have hz : ∀ kv ∈ [(dEye, (0 : ℚ)), (dHydration, 0), (dMsk, 0), (dWorkspace, 0),
          (dBaseline, 0), (dLongitudinal, 0), (dMental, 0), (dSleep, 0),
          (dProductivity, 0)], kv.2 = 0 := by
        intro kv hkv
        simp only [List.mem_cons, List.not_mem_nil, or_false] at hkv
        rcases hkv with rfl | rfl | rfl | rfl | rfl | rfl | rfl | rfl | rfl <;> rfl
      have hz0 : ∀ k : String, (List.lookup k
          [(dEye, (0 : ℚ)), (dHydration, 0), (dMsk, 0), (dWorkspace, 0), (dBaseline, 0),
            (dLongitudinal, 0), (dMental, 0), (dSleep, 0), (dProductivity, 0)]).getD 0 = 0 :=
        fun k => lookup_getD_zero k _ hz
      unfold compute_whi
      simp only [whi_weights, List.map_cons, List.map_nil, List.sum_cons, List.sum_nil, hz0]
      norm_num [clamp, min_def, max_def]
    simp only [final_scores_of, compute_all_scores, empty_histories, t1, t2, t3, t4, t5,
      except_bind_ok, except_pure, baseline_score_from_history, List.isEmpty_nil, if_true]
    rw [hW]
    norm_num [apply_global_pressure, round1, clamp, min_def, max_def])⟩

end RiskImpact
